import Mathlib

/-!
Shallow embedding of src/lib/OptimizelyClient.js.

JavaScript values relevant to the client are modelled as follows: the
loosely typed `options` argument of every method is a `JsIn` (a bare
string or number primitive, an object, or `undefined`); option objects
are an `Opts` record whose fields are `Option`-valued (`none` models an
absent property, `some v` a present one); JSON bodies are association
lists of field name to `JVal`.  A method call is modelled as a function
returning `Except JsErr (Request × Opts)`: `.error` is a synchronous
throw (so, by construction, no request is built), and an `.ok` result
carries the single HTTP request the method issues together with the
final state of the caller's options object (the source mutates it in
place).
-/

/-- A JavaScript string or number primitive, as accepted by the
identifier-bearing parameters of the client. -/
inductive JsPrim
  | s (v : String)
  | n (v : Int)
deriving DecidableEq, Repr

/-- JavaScript truthiness of a primitive: the empty string and zero are
falsy, everything else is truthy. -/
def JsPrim.truthy : JsPrim → Bool
  | .s v => v != ""
  | .n v => v != 0

/-- JavaScript ToString coercion of a primitive (string concatenation
and the String() call coerce numbers to their decimal form). -/
def JsPrim.toStr : JsPrim → String
  | .s v => v
  | .n v => toString v

/-- Truthiness of a possibly absent primitive field
(an absent property reads as `undefined`, which is falsy). -/
def primTruthy : Option JsPrim → Bool
  | some p => p.truthy
  | none => false

/-- Models the JavaScript expression `field || ""`. -/
def primOrEmpty : Option JsPrim → JsPrim
  | some p => if p.truthy then p else .s ""
  | none => .s ""

/-- Models the JavaScript expression `String(field || "")`. -/
def strOfField (f : Option JsPrim) : String :=
  (primOrEmpty f).toStr

/-- Truthiness of a possibly absent string field. -/
def strTruthy : Option String → Bool
  | some v => v != ""
  | none => false

/-- Models the JavaScript expression `field || d` on a string field. -/
def orDefStr (f : Option String) (d : String) : String :=
  match f with
  | some v => if v != "" then v else d
  | none => d

/-- A JSON value, as produced by JSON.stringify on the bodies the
client builds. -/
inductive JVal
  | s (v : String)
  | b (v : Bool)
  | n (v : Int)
  | arr (elems : List JVal)
  | obj (fields : List (String × JVal))

/-- Embeds a primitive into a JSON value. -/
def primJ : JsPrim → JVal
  | .s v => .s v
  | .n v => .n v

/-- The optional `dimension` filter object accepted by getResults and
getStats. -/
structure Dimension where
  id : Option String := none
  value : Option String := none

/-- The loosely typed options object passed to the client methods.
Every property the source ever reads or writes is a field; `none`
models an absent property. -/
structure Opts where
  id : Option JsPrim := none
  project_id : Option JsPrim := none
  experiment_id : Option JsPrim := none
  project_name : Option String := none
  project_status : Option String := none
  include_jquery : Option Bool := none
  ip_filter : Option String := none
  description : Option String := none
  edit_url : Option String := none
  custom_css : Option String := none
  custom_js : Option String := none
  js_component : Option String := none
  name : Option String := none
  segmentation : Option Bool := none
  conditions : Option (List JVal) := none
  client_api_name : Option String := none
  dimension : Option Dimension := none

/-- Helper for serialization: a present field contributes one entry. -/
def optField (k : String) (v : Option JVal) : List (String × JVal) :=
  match v with
  | some j => [(k, j)]
  | none => []

/-- JSON serialization of a dimension object. -/
def Dimension.serialize (d : Dimension) : JVal :=
  .obj (optField "id" (d.id.map .s) ++ optField "value" (d.value.map .s))

/-- Models JSON.stringify(options): every present property is
serialized; absent properties are skipped. -/
def Opts.serialize (o : Opts) : List (String × JVal) :=
  optField "id" (o.id.map primJ) ++
  optField "project_id" (o.project_id.map primJ) ++
  optField "experiment_id" (o.experiment_id.map primJ) ++
  optField "project_name" (o.project_name.map .s) ++
  optField "project_status" (o.project_status.map .s) ++
  optField "include_jquery" (o.include_jquery.map .b) ++
  optField "ip_filter" (o.ip_filter.map .s) ++
  optField "description" (o.description.map .s) ++
  optField "edit_url" (o.edit_url.map .s) ++
  optField "custom_css" (o.custom_css.map .s) ++
  optField "custom_js" (o.custom_js.map .s) ++
  optField "js_component" (o.js_component.map .s) ++
  optField "name" (o.name.map .s) ++
  optField "segmentation" (o.segmentation.map .b) ++
  optField "conditions" (o.conditions.map .arr) ++
  optField "client_api_name" (o.client_api_name.map .s) ++
  optField "dimension" (o.dimension.map Dimension.serialize)

/-- An outbound HTTP request as the client hands it to the transport. -/
structure Request where
  method : String
  url : String
  headers : List (String × String)
  body : Option (List (String × JVal))

/-- Looks a field up in a serialized body. -/
def bodyGet (b : List (String × JVal)) (k : String) : Option JVal :=
  (b.find? (fun kv => kv.1 == k)).map (fun kv => kv.2)

/-- Looks a field up in the body of a request (none when the request
carries no body or lacks the field). -/
def Request.bodyField (r : Request) (k : String) : Option JVal :=
  match r.body with
  | some b => bodyGet b k
  | none => none

/-- A synchronous throw: either an explicit `throw new Error(msg)` from
a validation check, or the TypeError raised by reading a property of
`undefined`. -/
inductive JsErr
  | validation (msg : String)
  | typeError
deriving DecidableEq, Repr

/-- The loosely typed argument of a client method. -/
inductive JsIn
  | prim (p : JsPrim)
  | obj (o : Opts)
  | undef

/-- The client object: construction-time configuration, immutable
afterwards. -/
structure OptimizelyClient where
  apiToken : String
  baseUrl : String
  baseHeaders : List (String × String)

/-- The constructor: throws when the token is falsy; default base URL
and Token-header auth, with OAuth2 switching to a Bearer header. -/
def mkOptimizelyClient (apiToken : String) (url : Option String)
    (oauth2 : Bool) : Except JsErr OptimizelyClient :=
  if apiToken = "" then .error (.validation "Required: apiToken")
  else
    .ok { apiToken := apiToken
          baseUrl := match url with
            | some u => u
            | none => "https://www.optimizelyapis.com/experiment/v1/"
          baseHeaders :=
            if oauth2 then
              [("Authorization", "Bearer " ++ apiToken),
               ("Content-Type", "application/json")]
            else
              [("Token", apiToken), ("Content-Type", "application/json")] }

/-- Models the statement pair: convert string OR number arguments to an
object carrying the id, then default a missing argument to the empty
object. -/
def normalizeIdInput : JsIn → Opts
  | .prim p => { id := some p }
  | .obj o => o
  | .undef => {}

/-- Same conversion, targeting the project_id property
(used by getExperiments). -/
def normalizeProjectIdInput : JsIn → Opts
  | .prim p => { project_id := some p }
  | .obj o => o
  | .undef => {}

/-- Models the conversion that only reshapes STRING arguments into an
object (numbers and undefined fall through unchanged), as done by
getVariation, deleteVariation, getAudience and getDimension. -/
def stringToIdObj : JsIn → JsIn
  | .prim (.s v) => .obj { id := some (.s v) }
  | x => x

/-- Hex digit for percent-encoding. -/
def hexDigitChar (n : Nat) : Char :=
  if n < 10 then Char.ofNat (48 + n) else Char.ofNat (55 + n)

/-- One percent-encoded byte. -/
def percentByte (b : Nat) : String :=
  String.mk ['%', hexDigitChar (b / 16), hexDigitChar (b % 16)]

/-- UTF-8 code units of a code point. -/
def utf8Units (n : Nat) : List Nat :=
  if n < 128 then [n]
  else if n < 2048 then [192 + n / 64, 128 + n % 64]
  else if n < 65536 then [224 + n / 4096, 128 + (n / 64) % 64, 128 + n % 64]
  else [240 + n / 262144, 128 + (n / 4096) % 64, 128 + (n / 64) % 64,
        128 + n % 64]

/-- Characters encodeURIComponent leaves untouched. -/
def uriUnreserved (ch : Char) : Bool :=
  (65 ≤ ch.toNat && ch.toNat ≤ 90) || (97 ≤ ch.toNat && ch.toNat ≤ 122) ||
  (48 ≤ ch.toNat && ch.toNat ≤ 57) ||
  ch == '-' || ch == '_' || ch == '.' || ch == '!' || ch == '~' ||
  ch == '*' || ch.toNat == 39 || ch == '(' || ch == ')'

/-- The encodeURIComponent builtin used when building dimension query
strings. -/
def encodeURIComponent (s : String) : String :=
  String.join (s.toList.map (fun ch =>
    if uriUnreserved ch then String.singleton ch
    else String.join ((utf8Units ch.toNat).map percentByte)))

/-- createProject: fills project_name, project_status, include_jquery
and ip_filter with their defaults (mutating the options object), then
POSTs the serialized options to projects/. It performs no validation. -/
def OptimizelyClient.createProject (c : OptimizelyClient)
    (options : Option Opts) : Except JsErr (Request × Opts) :=
  let o := options.getD {}
  let o := { o with project_name := some (orDefStr o.project_name "") }
  let o := { o with project_status := some (orDefStr o.project_status "Active") }
  let o := { o with include_jquery := some (o.include_jquery.getD false) }
  let o := { o with ip_filter := some (orDefStr o.ip_filter "") }
  .ok ({ method := "post", url := c.baseUrl ++ "projects/",
         headers := c.baseHeaders, body := some o.serialize }, o)

/-- getProject: accepts a bare string or number id or an object,
coerces the id to a string, throws when it is empty, and GETs
projects/(id). -/
def OptimizelyClient.getProject (c : OptimizelyClient) (input : JsIn) :
    Except JsErr (Request × Opts) :=
  let o := normalizeIdInput input
  let s := strOfField o.id
  let o := { o with id := some (JsPrim.s s) }
  if s != "" then
    .ok ({ method := "get", url := c.baseUrl ++ "projects/" ++ s,
           headers := c.baseHeaders, body := none }, o)
  else .error (.validation "required: options.id")

/-- updateProject: throws when the id is falsy, then PUTs the full
serialized options (the id included) to projects/(id). -/
def OptimizelyClient.updateProject (c : OptimizelyClient)
    (options : Option Opts) : Except JsErr (Request × Opts) :=
  let o := options.getD {}
  if primTruthy o.id then
    .ok ({ method := "put",
           url := c.baseUrl ++ "projects/" ++ (primOrEmpty o.id).toStr,
           headers := c.baseHeaders, body := some o.serialize }, o)
  else .error (.validation "required: options.id")

/-- getProjects: GETs projects/ with no validation. -/
def OptimizelyClient.getProjects (c : OptimizelyClient) :
    Except JsErr Request :=
  .ok { method := "get", url := c.baseUrl ++ "projects/",
        headers := c.baseHeaders, body := none }

/-- createExperiment: writes defaults for description, project_id,
edit_url, custom_css and custom_js into the options, throws when
edit_url or project_id is falsy, builds
projects/(project_id)/experiments/, deletes project_id from the
options, and POSTs the serialized remainder. -/
def OptimizelyClient.createExperiment (c : OptimizelyClient)
    (options : Option Opts) : Except JsErr (Request × Opts) :=
  let o := options.getD {}
  let o := { o with description := some (orDefStr o.description "") }
  let o := { o with project_id := some (primOrEmpty o.project_id) }
  let o := { o with edit_url := some (orDefStr o.edit_url "") }
  let o := { o with custom_css := some (orDefStr o.custom_css "") }
  let o := { o with custom_js := some (orDefStr o.custom_js "") }
  if strTruthy o.edit_url = false then
    .error (.validation "Required: options.edit_url")
  else if primTruthy o.project_id = false then
    .error (.validation "Required: options.project_id")
  else
    let postUrl := c.baseUrl ++ "projects/" ++ (primOrEmpty o.project_id).toStr
      ++ "/experiments/"
    let o := { o with project_id := none }
    .ok ({ method := "post", url := postUrl, headers := c.baseHeaders,
           body := some o.serialize }, o)

/-- getExperiment: same shape as getProject, against experiments/(id). -/
def OptimizelyClient.getExperiment (c : OptimizelyClient) (input : JsIn) :
    Except JsErr (Request × Opts) :=
  let o := normalizeIdInput input
  let s := strOfField o.id
  let o := { o with id := some (JsPrim.s s) }
  if s != "" then
    .ok ({ method := "get", url := c.baseUrl ++ "experiments/" ++ s,
           headers := c.baseHeaders, body := none }, o)
  else .error (.validation "required: options.id")

/-- updateExperiment: coerces the id to a string and writes defaults
for description, edit_url, custom_css and custom_js into the options,
throws when the id is empty, deletes the id, and PUTs the serialized
remainder to experiments/(id). -/
def OptimizelyClient.updateExperiment (c : OptimizelyClient)
    (options : Option Opts) : Except JsErr (Request × Opts) :=
  let o := options.getD {}
  let s := strOfField o.id
  let o := { o with id := some (JsPrim.s s) }
  let o := { o with description := some (orDefStr o.description "") }
  let o := { o with edit_url := some (orDefStr o.edit_url "") }
  let o := { o with custom_css := some (orDefStr o.custom_css "") }
  let o := { o with custom_js := some (orDefStr o.custom_js "") }
  if s != "" then
    let o := { o with id := none }
    .ok ({ method := "put", url := c.baseUrl ++ "experiments/" ++ s,
           headers := c.baseHeaders, body := some o.serialize }, o)
  else .error (.validation "required: options.id")

/-- pushExperiment: defaults the id to the empty string, then
dispatches to updateExperiment when the id is truthy and to
createExperiment otherwise. -/
def OptimizelyClient.pushExperiment (c : OptimizelyClient)
    (options : Option Opts) : Except JsErr (Request × Opts) :=
  let o := options.getD {}
  let o := { o with id := some (primOrEmpty o.id) }
  if primTruthy o.id then c.updateExperiment (some o)
  else c.createExperiment (some o)

/-- getExperiments: accepts a bare string or number project id or an
object, coerces it to a string, throws when empty, and GETs
projects/(project_id)/experiments/. -/
def OptimizelyClient.getExperiments (c : OptimizelyClient) (input : JsIn) :
    Except JsErr (Request × Opts) :=
  let o := normalizeProjectIdInput input
  let s := strOfField o.project_id
  let o := { o with project_id := some (JsPrim.s s) }
  if s != "" then
    .ok ({ method := "get",
           url := c.baseUrl ++ "projects/" ++ s ++ "/experiments/",
           headers := c.baseHeaders, body := none }, o)
  else .error (.validation "required: options.project_id")

/-- deleteExperiment: same input handling as getExperiment; issues a
DELETE against experiments/(id). -/
def OptimizelyClient.deleteExperiment (c : OptimizelyClient)
    (input : JsIn) : Except JsErr (Request × Opts) :=
  let o := normalizeIdInput input
  let s := strOfField o.id
  let o := { o with id := some (JsPrim.s s) }
  if s != "" then
    .ok ({ method := "delete", url := c.baseUrl ++ "experiments/" ++ s,
           headers := c.baseHeaders, body := none }, o)
  else .error (.validation "required: options.id")

/-- getResults: coerces the experiment id, throws when empty; when a
dimension filter object is present, throws when its id or value is
falsy, else appends the percent-encoded dimension_id and
dimension_value query parameters; GETs experiments/(id)/results. -/
def OptimizelyClient.getResults (c : OptimizelyClient) (input : JsIn) :
    Except JsErr (Request × Opts) :=
  let o := normalizeIdInput input
  let s := strOfField o.id
  let o := { o with id := some (JsPrim.s s) }
  if s != "" then
    let theUrl := c.baseUrl ++ "experiments/" ++ s ++ "/results"
    match o.dimension with
    | none =>
      .ok ({ method := "GET", url := theUrl,
             headers := c.baseHeaders, body := none }, o)
    | some d =>
      if strTruthy d.id = false then
        .error (.validation "required: options.dimension.id")
      else if strTruthy d.value = false then
        .error (.validation "required: options.dimension.value")
      else
        .ok ({ method := "GET",
               url := theUrl ++ "?dimension_id="
                 ++ encodeURIComponent (d.id.getD "")
                 ++ "&dimension_value="
                 ++ encodeURIComponent (d.value.getD ""),
               headers := c.baseHeaders, body := none }, o)
  else .error (.validation "required: options.id")

/-- getStats: identical to getResults except the path segment is
experiments/(id)/stats. -/
def OptimizelyClient.getStats (c : OptimizelyClient) (input : JsIn) :
    Except JsErr (Request × Opts) :=
  let o := normalizeIdInput input
  let s := strOfField o.id
  let o := { o with id := some (JsPrim.s s) }
  if s != "" then
    let theUrl := c.baseUrl ++ "experiments/" ++ s ++ "/stats"
    match o.dimension with
    | none =>
      .ok ({ method := "GET", url := theUrl,
             headers := c.baseHeaders, body := none }, o)
    | some d =>
      if strTruthy d.id = false then
        .error (.validation "required: options.dimension.id")
      else if strTruthy d.value = false then
        .error (.validation "required: options.dimension.value")
      else
        .ok ({ method := "GET",
               url := theUrl ++ "?dimension_id="
                 ++ encodeURIComponent (d.id.getD "")
                 ++ "&dimension_value="
                 ++ encodeURIComponent (d.value.getD ""),
               headers := c.baseHeaders, body := none }, o)
  else .error (.validation "required: options.id")

/-- createVariation: coerces experiment_id to a string and defaults the
description (mutating the options), throws when experiment_id is empty,
builds experiments/(experiment_id)/variations/, deletes experiment_id
from the options, and POSTs the serialized remainder. -/
def OptimizelyClient.createVariation (c : OptimizelyClient)
    (options : Option Opts) : Except JsErr (Request × Opts) :=
  let o := options.getD {}
  let s := strOfField o.experiment_id
  let o := { o with experiment_id := some (JsPrim.s s) }
  let o := { o with description := some (orDefStr o.description "") }
  if s != "" then
    let postUrl := c.baseUrl ++ "experiments/" ++ s ++ "/variations/"
    let o := { o with experiment_id := none }
    .ok ({ method := "post", url := postUrl, headers := c.baseHeaders,
           body := some o.serialize }, o)
  else .error (.validation "Required: options.experiment_id")

/-- getVariation: only a bare STRING argument is reshaped into an
object; a bare number keeps no id property (so the id check fails) and
an absent argument makes the id read itself throw a TypeError; GETs
variations/(id). -/
def OptimizelyClient.getVariation (c : OptimizelyClient) (input : JsIn) :
    Except JsErr (Request × Opts) :=
  match stringToIdObj input with
  | .undef => .error .typeError
  | .prim _ => .error (.validation "Required: options.id")
  | .obj o =>
    if primTruthy o.id then
      .ok ({ method := "get",
             url := c.baseUrl ++ "variations/" ++ (primOrEmpty o.id).toStr,
             headers := c.baseHeaders, body := none }, o)
    else .error (.validation "Required: options.id")

/-- updateVariation: throws when the id is falsy, then PUTs a freshly
built body holding exactly the id, description and js_component fields
to variations/(id); the caller's options object is not mutated. -/
def OptimizelyClient.updateVariation (c : OptimizelyClient)
    (options : Option Opts) : Except JsErr (Request × Opts) :=
  let o := options.getD {}
  if primTruthy o.id then
    let optionsToUpdate : List (String × JVal) :=
      [("id", primJ (primOrEmpty o.id)),
       ("description", .s (orDefStr o.description "")),
       ("js_component", .s (orDefStr o.js_component ""))]
    .ok ({ method := "put",
           url := c.baseUrl ++ "variations/" ++ (primOrEmpty o.id).toStr,
           headers := c.baseHeaders, body := some optionsToUpdate }, o)
  else .error (.validation "Required: options.id")

/-- pushVariation: defaults the id to the empty string, then dispatches
to updateVariation when the id is truthy and to createVariation
otherwise. -/
def OptimizelyClient.pushVariation (c : OptimizelyClient)
    (options : Option Opts) : Except JsErr (Request × Opts) :=
  let o := options.getD {}
  let o := { o with id := some (primOrEmpty o.id) }
  if primTruthy o.id then c.updateVariation (some o)
  else c.createVariation (some o)

/-- deleteVariation: same string-only input handling as getVariation;
issues a DELETE against variations/(id). -/
def OptimizelyClient.deleteVariation (c : OptimizelyClient)
    (input : JsIn) : Except JsErr (Request × Opts) :=
  match stringToIdObj input with
  | .undef => .error .typeError
  | .prim _ => .error (.validation "Required: options.id")
  | .obj o =>
    if primTruthy o.id then
      .ok ({ method := "delete",
             url := c.baseUrl ++ "variations/" ++ (primOrEmpty o.id).toStr,
             headers := c.baseHeaders, body := none }, o)
    else .error (.validation "Required: options.id")

/-- getAudience: same string-only input handling as getVariation; GETs
audiences/(id). -/
def OptimizelyClient.getAudience (c : OptimizelyClient) (input : JsIn) :
    Except JsErr (Request × Opts) :=
  match stringToIdObj input with
  | .undef => .error .typeError
  | .prim _ => .error (.validation "Required: options.id")
  | .obj o =>
    if primTruthy o.id then
      .ok ({ method := "get",
             url := c.baseUrl ++ "audiences/" ++ (primOrEmpty o.id).toStr,
             headers := c.baseHeaders, body := none }, o)
    else .error (.validation "Required: options.id")

/-- createAudience: throws when name then id is falsy; builds a fresh
body holding name, id, description, segmentation and conditions with
their defaults, and POSTs it to projects/(id)/audiences/; the caller's
options object is not mutated. -/
def OptimizelyClient.createAudience (c : OptimizelyClient)
    (options : Option Opts) : Except JsErr (Request × Opts) :=
  let o := options.getD {}
  if strTruthy o.name = false then
    .error (.validation "Required: options.name")
  else if primTruthy o.id = false then
    .error (.validation "Required: options.id")
  else
    let optionsToSend : List (String × JVal) :=
      [("name", .s (o.name.getD "")),
       ("id", primJ (primOrEmpty o.id)),
       ("description", .s (orDefStr o.description "")),
       ("segmentation", .b (o.segmentation.getD false)),
       ("conditions", .arr (o.conditions.getD []))]
    .ok ({ method := "post",
           url := c.baseUrl ++ "projects/" ++ (primOrEmpty o.id).toStr
             ++ "/audiences/",
           headers := c.baseHeaders, body := some optionsToSend }, o)

/-- updateAudience: throws when the id is falsy, then PUTs the full
serialized options (the id included) to audiences/(id). -/
def OptimizelyClient.updateAudience (c : OptimizelyClient)
    (options : Option Opts) : Except JsErr (Request × Opts) :=
  let o := options.getD {}
  if primTruthy o.id then
    .ok ({ method := "put",
           url := c.baseUrl ++ "audiences/" ++ (primOrEmpty o.id).toStr,
           headers := c.baseHeaders, body := some o.serialize }, o)
  else .error (.validation "required: options.id")

/-- getAudiences: accepts a bare string or number project id or an
object, defaults the id to the empty string without String coercion,
throws when falsy, and GETs projects/(id)/audiences/. -/
def OptimizelyClient.getAudiences (c : OptimizelyClient) (input : JsIn) :
    Except JsErr (Request × Opts) :=
  let o := normalizeIdInput input
  let o := { o with id := some (primOrEmpty o.id) }
  if primTruthy o.id then
    .ok ({ method := "get",
           url := c.baseUrl ++ "projects/" ++ (primOrEmpty o.id).toStr
             ++ "/audiences/",
           headers := c.baseHeaders, body := none }, o)
  else .error (.validation "required: options.id")

/-- getDimension: same string-only input handling as getVariation; GETs
dimensions/(id). -/
def OptimizelyClient.getDimension (c : OptimizelyClient) (input : JsIn) :
    Except JsErr (Request × Opts) :=
  match stringToIdObj input with
  | .undef => .error .typeError
  | .prim _ => .error (.validation "Required: options.id")
  | .obj o =>
    if primTruthy o.id then
      .ok ({ method := "get",
             url := c.baseUrl ++ "dimensions/" ++ (primOrEmpty o.id).toStr,
             headers := c.baseHeaders, body := none }, o)
    else .error (.validation "Required: options.id")

/-- createDimension: throws when name then id is falsy; builds a fresh
body holding name, id, description and client_api_name with their
defaults, and POSTs it to projects/(id)/dimensions/. -/
def OptimizelyClient.createDimension (c : OptimizelyClient)
    (options : Option Opts) : Except JsErr (Request × Opts) :=
  let o := options.getD {}
  if strTruthy o.name = false then
    .error (.validation "Required: options.name")
  else if primTruthy o.id = false then
    .error (.validation "Required: options.id")
  else
    let optionsToSend : List (String × JVal) :=
      [("name", .s (o.name.getD "")),
       ("id", primJ (primOrEmpty o.id)),
       ("description", .s (orDefStr o.description "")),
       ("client_api_name", .s (orDefStr o.client_api_name ""))]
    .ok ({ method := "post",
           url := c.baseUrl ++ "projects/" ++ (primOrEmpty o.id).toStr
             ++ "/dimensions/",
           headers := c.baseHeaders, body := some optionsToSend }, o)

/-- updateDimension: throws when the id is falsy, then PUTs the full
serialized options (the id included) to dimensions/(id). -/
def OptimizelyClient.updateDimension (c : OptimizelyClient)
    (options : Option Opts) : Except JsErr (Request × Opts) :=
  let o := options.getD {}
  if primTruthy o.id then
    .ok ({ method := "put",
           url := c.baseUrl ++ "dimensions/" ++ (primOrEmpty o.id).toStr,
           headers := c.baseHeaders, body := some o.serialize }, o)
  else .error (.validation "required: options.id")

/-- getDimensions: same shape as getAudiences, against
projects/(id)/dimensions/. -/
def OptimizelyClient.getDimensions (c : OptimizelyClient) (input : JsIn) :
    Except JsErr (Request × Opts) :=
  let o := normalizeIdInput input
  let o := { o with id := some (primOrEmpty o.id) }
  if primTruthy o.id then
    .ok ({ method := "get",
           url := c.baseUrl ++ "projects/" ++ (primOrEmpty o.id).toStr
             ++ "/dimensions/",
           headers := c.baseHeaders, body := none }, o)
  else .error (.validation "required: options.id")

/-- getGoals: same shape as getAudiences, against
projects/(id)/goals/. -/
def OptimizelyClient.getGoals (c : OptimizelyClient) (input : JsIn) :
    Except JsErr (Request × Opts) :=
  let o := normalizeIdInput input
  let o := { o with id := some (primOrEmpty o.id) }
  if primTruthy o.id then
    .ok ({ method := "get",
           url := c.baseUrl ++ "projects/" ++ (primOrEmpty o.id).toStr
             ++ "/goals/",
           headers := c.baseHeaders, body := none }, o)
  else .error (.validation "required: options.id")

/-- A JSON object in a list response, as scanned by
getExperimentByDescription. -/
def JsObj : Type := List (String × JVal)

/-- Property read on a response entry. -/
def JsObj.getField (o : JsObj) (k : String) : Option JVal :=
  (List.find? (fun kv => kv.1 == k) o).map (fun kv => kv.2)

/-- JavaScript strict equality of a property value against a string:
true exactly when the property holds that string. -/
def isStrVal : Option JVal → String → Bool
  | some (.s v), d => v == d
  | _, _ => false

/-- The for-in scan of getExperimentByDescription: returns the first
entry whose description property strictly equals the requested string,
or null (here none) when no entry matches. -/
def findByDescription : List JsObj → String → Option JsObj
  | [], _ => none
  | x :: rest, d =>
    if isStrVal (x.getField "description") d then some x
    else findByDescription rest d

/-- The data handed to the then-callback: either the raw serialized
text of the list response or an already structured array. -/
inductive RespData
  | text (raw : String)
  | arr (xs : List JsObj)

/-- The then-callback of getExperimentByDescription: parses the data
first when it arrives as serialized text (JSON.parse is an external
primitive, passed in as `parse`), then runs the first-match scan for
the captured description. -/
def experimentByDescriptionScan (parse : String → List JsObj)
    (descr : String) : RespData → Option JsObj
  | .text raw => findByDescription (parse raw) descr
  | .arr xs => findByDescription xs descr

/-- The synchronous part of getExperimentByDescription: only a bare
STRING argument is reshaped (into an object carrying project_id); the
description falls back to the second positional argument; after
validating both, the single request is delegated to getExperiments on
the coerced project_id. Returns that request together with the
description the then-callback closes over. -/
def OptimizelyClient.getExperimentByDescription (c : OptimizelyClient)
    (input : JsIn) (arg1 : Option String) :
    Except JsErr (Request × String) :=
  match (match input with
         | .prim (.s v) => JsIn.obj { project_id := some (.s v) }
         | x => x) with
  | .undef => .error (.validation "Required: options.project_id")
  | .prim _ => .error (.validation "Required: options.project_id")
  | .obj o =>
    let s := strOfField o.project_id
    let d : Option String :=
      if strTruthy o.description then o.description else arg1
    if s = "" then .error (.validation "Required: options.project_id")
    else if strTruthy d = false then
      .error (.validation "Required: options.description")
    else
      match c.getExperiments (.prim (.s s)) with
      | .ok (req, _) => .ok (req, d.getD "")
      | .error e => .error e

/-- A terminal event of the event-driven HTTP call wrapped by
EventEmitterPromisifier. -/
inductive Ev
  | success (data : JVal)
  | fail (data : JVal)
  | error (err : JVal)
  | abort
  | timeout

/-- The settled state of the returned promise. -/
inductive Settled
  | fulfilled (data : JVal)
  | rejectedFail (data : JVal)
  | rejectedError (err : JVal)
  | rejectedCancellation
  | rejectedTimeout

/-- The handler EventEmitterPromisifier registers for each event:
success resolves with the raw body; fail rejects with the body; error
rejects with the error object; abort rejects with a CancellationError;
timeout rejects with a TimeoutError. -/
def settleEvent : Ev → Settled
  | .success data => .fulfilled data
  | .fail data => .rejectedFail data
  | .error err => .rejectedError err
  | .abort => .rejectedCancellation
  | .timeout => .rejectedTimeout

/-- Promise resolution semantics: once settled, further resolve or
reject calls are ignored. -/
def resolveOnce (st : Option Settled) (e : Ev) : Option Settled :=
  match st with
  | some settled => some settled
  | none => some (settleEvent e)

/-- The promise produced for one underlying call, given the sequence of
events the emitter fires. -/
def runEmitter (evs : List Ev) : Option Settled :=
  evs.foldl resolveOnce none

/-- EventEmitterPromisifier invokes the original method exactly once
(the single application below) and settles the promise from the events
of the emitter that one invocation returns. -/
def EventEmitterPromisifier (originalMethod : Unit → List Ev) :
    Option Settled :=
  runEmitter (originalMethod ())

/-- The client used for concrete evaluations: constructed with the
token "token" and the default configuration. -/
def defaultClient : OptimizelyClient :=
  { apiToken := "token"
    baseUrl := "https://www.optimizelyapis.com/experiment/v1/"
    baseHeaders := [("Token", "token"), ("Content-Type", "application/json")] }

/-- A result that is a synchronous throw from a validation check. -/
def throwsValidation (r : Except JsErr (Request × Opts)) : Prop :=
  ∃ m, r = .error (.validation m)

/-- The identifier carried by a method argument is absent or empty. -/
def idFalsyInput : JsIn → Prop
  | .prim p => p.truthy = false
  | .obj o => primTruthy o.id = false
  | .undef => True

/-- The project identifier carried by a method argument is absent or
empty. -/
def projectIdFalsyInput : JsIn → Prop
  | .prim p => p.truthy = false
  | .obj o => primTruthy o.project_id = false
  | .undef => True

theorem primOrEmpty_truthy (f : Option JsPrim) :
    (primOrEmpty f).truthy = primTruthy f := by
  cases f with
  | none => rfl
  | some p =>
    cases h : p.truthy with
    | false => simp only [primOrEmpty, primTruthy, h, if_neg Bool.false_ne_true]; decide
    | true => simp [primOrEmpty, primTruthy, h]

theorem strOfField_falsy {f : Option JsPrim} (h : primTruthy f = false) :
    strOfField f = "" := by
  cases f with
  | none => rfl
  | some p =>
    simp only [primTruthy] at h
    simp [strOfField, primOrEmpty, h, JsPrim.toStr]

theorem primOrEmpty_of_truthy {p : JsPrim} (h : p.truthy = true) :
    primOrEmpty (some p) = p := by
  simp [primOrEmpty, h]

theorem bodyGet_skip {k k2 : String} (h : (k2 == k) = false) (v : Option JVal)
    (rest : List (String × JVal)) :
    bodyGet (optField k2 v ++ rest) k = bodyGet rest k := by
  cases v <;> simp [optField, bodyGet, List.find?, h]

theorem bodyGet_here (k : String) (j : JVal) (rest : List (String × JVal)) :
    bodyGet (optField k (some j) ++ rest) k = some j := by
  simp [optField, bodyGet, List.find?]

theorem bodyGet_here_last (k : String) (j : JVal) :
    bodyGet (optField k (some j)) k = some j := by
  simp [optField, bodyGet, List.find?]

theorem foldl_resolveOnce_settled (s : Settled) (l : List Ev) :
    l.foldl resolveOnce (some s) = some s := by
  induction l with
  | nil => rfl
  | cons e rest ih => simpa [resolveOnce] using ih

/-- C8: for every HTTP call made through the request adapter, exactly
one resolution path fires: the promise is settled by the first terminal
event alone (success fulfills with the raw body; fail rejects with the
body; error rejects with the error object; abort rejects with a
cancellation marker; timeout rejects with a timeout marker), any
further events are ignored (no double resolution), and the adapter
invokes the underlying method exactly once (no retry). -/
theorem c8_adapter_single_resolution :
    (∀ f : Unit → List Ev, EventEmitterPromisifier f = runEmitter (f ())) ∧
    (∀ (d : JVal) (rest : List Ev),
      runEmitter (.success d :: rest) = some (.fulfilled d)) ∧
    (∀ (d : JVal) (rest : List Ev),
      runEmitter (.fail d :: rest) = some (.rejectedFail d)) ∧
    (∀ (e : JVal) (rest : List Ev),
      runEmitter (.error e :: rest) = some (.rejectedError e)) ∧
    (∀ rest : List Ev,
      runEmitter (.abort :: rest) = some .rejectedCancellation) ∧
    (∀ rest : List Ev,
      runEmitter (.timeout :: rest) = some .rejectedTimeout) ∧
    (∀ (e : Ev) (rest : List Ev),
      runEmitter (e :: rest) = some (settleEvent e)) := by
  have key : ∀ (e : Ev) (rest : List Ev),
      runEmitter (e :: rest) = some (settleEvent e) := by
    intro e rest
    simp [runEmitter, List.foldl, resolveOnce, foldl_resolveOnce_settled]
  exact ⟨fun f => rfl, fun d rest => key (.success d) rest,
    fun d rest => key (.fail d) rest, fun e rest => key (.error e) rest,
    fun rest => key .abort rest, fun rest => key .timeout rest, key⟩

/-- C6: createProject never requires project_name (defaulting it to the
empty string, so the call always succeeds) and applies the documented
defaults to its request body: project_status defaults to Active when
absent, ip_filter defaults to the empty string when absent, and
include_jquery is coerced to a boolean. -/
theorem c6_create_project_defaults (c : OptimizelyClient) (o : Opts) :
    ∃ req o2, c.createProject (some o) = .ok (req, o2) ∧
      req.bodyField "project_name" = some (.s (orDefStr o.project_name "")) ∧
      req.bodyField "project_status" =
        some (.s (orDefStr o.project_status "Active")) ∧
      (o.project_status = none →
        req.bodyField "project_status" = some (.s "Active")) ∧
      req.bodyField "ip_filter" = some (.s (orDefStr o.ip_filter "")) ∧
      (o.ip_filter = none → req.bodyField "ip_filter" = some (.s "")) ∧
      req.bodyField "include_jquery" =
        some (.b (o.include_jquery.getD false)) := by
  refine ⟨_, _, rfl, ?_, ?_, ?_, ?_, ?_, ?_⟩ <;>
    simp [Request.bodyField, Opts.serialize, OptimizelyClient.createProject,
      bodyGet_skip, bodyGet_here, bodyGet_here_last]
  · intro h; simp [h, orDefStr]
  · intro h; simp [h, orDefStr]

/-- Witness for C6 at the empty options object. -/
theorem c6_create_project_defaults_witness :
    ∃ req o2, defaultClient.createProject (some {}) = .ok (req, o2) ∧
      req.bodyField "project_status" = some (.s "Active") ∧
      req.bodyField "ip_filter" = some (.s "") := by
  obtain ⟨req, o2, h, _, _, hs, _, hip, _⟩ :=
    c6_create_project_defaults defaultClient {}
  exact ⟨req, o2, h, hs rfl, hip rfl⟩

theorem normalizeId_falsy {input : JsIn} (h : idFalsyInput input) :
    primTruthy (normalizeIdInput input).id = false := by
  cases input with
  | prim p => simpa [normalizeIdInput, primTruthy] using h
  | obj o => exact h
  | undef => rfl

theorem normalizeProjectId_falsy {input : JsIn} (h : projectIdFalsyInput input) :
    primTruthy (normalizeProjectIdInput input).project_id = false := by
  cases input with
  | prim p => simpa [normalizeProjectIdInput, primTruthy] using h
  | obj o => exact h
  | undef => rfl

/-- C1 (counterexample to the claim as stated): calling getVariation
with the options argument absent entirely hits a TypeError from reading
a property of undefined, not a ValidationError. -/
theorem c1_counterexample :
    defaultClient.getVariation .undef = .error .typeError := rfl

/-- C1 (amended): every one of the eleven read, delete and list
operations throws synchronously (so no request is built) when its
identifier is absent or empty; the throw is a ValidationError in every
such case, except that getVariation, deleteVariation, getAudience and
getDimension, when called with the options argument absent entirely,
throw a TypeError from reading a property of undefined instead. -/
theorem c1_amended (c : OptimizelyClient) :
    (∀ input, idFalsyInput input → throwsValidation (c.getProject input)) ∧
    (∀ input, idFalsyInput input → throwsValidation (c.getExperiment input)) ∧
    (∀ input, idFalsyInput input → throwsValidation (c.deleteExperiment input)) ∧
    (∀ input, projectIdFalsyInput input →
      throwsValidation (c.getExperiments input)) ∧
    (∀ input, idFalsyInput input → throwsValidation (c.getAudiences input)) ∧
    (∀ input, idFalsyInput input → throwsValidation (c.getDimensions input)) ∧
    (∀ input, idFalsyInput input → throwsValidation (c.getGoals input)) ∧
    (∀ o : Opts, primTruthy o.id = false →
      throwsValidation (c.getVariation (.obj o))) ∧
    (∀ p : JsPrim, p.truthy = false →
      throwsValidation (c.getVariation (.prim p))) ∧
    c.getVariation .undef = .error .typeError ∧
    (∀ o : Opts, primTruthy o.id = false →
      throwsValidation (c.deleteVariation (.obj o))) ∧
    (∀ p : JsPrim, p.truthy = false →
      throwsValidation (c.deleteVariation (.prim p))) ∧
    c.deleteVariation .undef = .error .typeError ∧
    (∀ o : Opts, primTruthy o.id = false →
      throwsValidation (c.getAudience (.obj o))) ∧
    (∀ p : JsPrim, p.truthy = false →
      throwsValidation (c.getAudience (.prim p))) ∧
    c.getAudience .undef = .error .typeError ∧
    (∀ o : Opts, primTruthy o.id = false →
      throwsValidation (c.getDimension (.obj o))) ∧
    (∀ p : JsPrim, p.truthy = false →
      throwsValidation (c.getDimension (.prim p))) ∧
    c.getDimension .undef = .error .typeError := by
  refine ⟨?_, ?_, ?_, ?_, ?_, ?_, ?_, ?_, ?_, rfl, ?_, ?_, rfl, ?_, ?_, rfl,
    ?_, ?_, rfl⟩
  · intro input h
    exact ⟨"required: options.id", by simp [OptimizelyClient.getProject,
      strOfField_falsy (normalizeId_falsy h)]⟩
  · intro input h
    exact ⟨"required: options.id", by simp [OptimizelyClient.getExperiment,
      strOfField_falsy (normalizeId_falsy h)]⟩
  · intro input h
    exact ⟨"required: options.id", by simp [OptimizelyClient.deleteExperiment,
      strOfField_falsy (normalizeId_falsy h)]⟩
  · intro input h
    exact ⟨"required: options.project_id",
      by simp [OptimizelyClient.getExperiments,
        strOfField_falsy (normalizeProjectId_falsy h)]⟩
  · intro input h
    have hfalse : primTruthy (some (primOrEmpty (normalizeIdInput input).id))
        = false := by
      have he : primTruthy (some (primOrEmpty (normalizeIdInput input).id)) =
          (primOrEmpty (normalizeIdInput input).id).truthy := rfl
      rw [he, primOrEmpty_truthy, normalizeId_falsy h]
    exact ⟨"required: options.id",
      by simp [OptimizelyClient.getAudiences, hfalse]⟩
  · intro input h
    have hfalse : primTruthy (some (primOrEmpty (normalizeIdInput input).id))
        = false := by
      have he : primTruthy (some (primOrEmpty (normalizeIdInput input).id)) =
          (primOrEmpty (normalizeIdInput input).id).truthy := rfl
      rw [he, primOrEmpty_truthy, normalizeId_falsy h]
    exact ⟨"required: options.id",
      by simp [OptimizelyClient.getDimensions, hfalse]⟩
  · intro input h
    have hfalse : primTruthy (some (primOrEmpty (normalizeIdInput input).id))
        = false := by
      have he : primTruthy (some (primOrEmpty (normalizeIdInput input).id)) =
          (primOrEmpty (normalizeIdInput input).id).truthy := rfl
      rw [he, primOrEmpty_truthy, normalizeId_falsy h]
    exact ⟨"required: options.id",
      by simp [OptimizelyClient.getGoals, hfalse]⟩
  · intro o h
    exact ⟨"Required: options.id",
      by simp [OptimizelyClient.getVariation, stringToIdObj, h]⟩
  · intro p h
    cases p with
    | s v =>
      have hv : v = "" := by simpa [JsPrim.truthy] using h
      subst hv; exact ⟨_, rfl⟩
    | n v => exact ⟨_, rfl⟩
  · intro o h
    exact ⟨"Required: options.id",
      by simp [OptimizelyClient.deleteVariation, stringToIdObj, h]⟩
  · intro p h
    cases p with
    | s v =>
      have hv : v = "" := by simpa [JsPrim.truthy] using h
      subst hv; exact ⟨_, rfl⟩
    | n v => exact ⟨_, rfl⟩
  · intro o h
    exact ⟨"Required: options.id",
      by simp [OptimizelyClient.getAudience, stringToIdObj, h]⟩
  · intro p h
    cases p with
    | s v =>
      have hv : v = "" := by simpa [JsPrim.truthy] using h
      subst hv; exact ⟨_, rfl⟩
    | n v => exact ⟨_, rfl⟩
  · intro o h
    exact ⟨"Required: options.id",
      by simp [OptimizelyClient.getDimension, stringToIdObj, h]⟩
  · intro p h
    cases p with
    | s v =>
      have hv : v = "" := by simpa [JsPrim.truthy] using h
      subst hv; exact ⟨_, rfl⟩
    | n v => exact ⟨_, rfl⟩

/-- Witness for C1 at concrete inputs: a missing argument to getProject
and an empty bare id to getVariation both throw a ValidationError. -/
theorem c1_amended_witness :
    throwsValidation (defaultClient.getProject .undef) ∧
    throwsValidation (defaultClient.getVariation (.prim (.s ""))) := by
  obtain ⟨h1, _, _, _, _, _, _, _, h9, _⟩ := c1_amended defaultClient
  exact ⟨h1 .undef trivial, h9 (.s "") rfl⟩

/-- C9 (counterexample to the claim as stated): passing the bare
numeric id 42 to getVariation throws a ValidationError, while passing
an object with that id issues the request to variations/42, so the two
forms are not equivalent. -/
theorem c9_counterexample :
    defaultClient.getVariation (.prim (.n 42)) =
      .error (.validation "Required: options.id") ∧
    Except.map (fun ro => ro.1.url)
      (defaultClient.getVariation (.obj { id := some (.n 42) })) =
      .ok "https://www.optimizelyapis.com/experiment/v1/variations/42" :=
  ⟨rfl, rfl⟩

/-- C9 (amended): getProject and getExperiment accept a bare string or
numeric id equivalently to an object carrying it; getVariation,
getAudience, getDimension and deleteVariation only grant that
equivalence to bare string ids, and throw a ValidationError on every
bare numeric id; wherever a request is issued, the identifier is
coerced to string form in the URL path. -/
theorem c9_amended (c : OptimizelyClient) :
    (∀ p : JsPrim, c.getProject (.prim p) = c.getProject (.obj { id := some p })) ∧
    (∀ p : JsPrim,
      c.getExperiment (.prim p) = c.getExperiment (.obj { id := some p })) ∧
    (∀ s : String,
      c.getVariation (.prim (.s s)) = c.getVariation (.obj { id := some (.s s) })) ∧
    (∀ v : Int, c.getVariation (.prim (.n v)) =
      .error (.validation "Required: options.id")) ∧
    (∀ s : String,
      c.getAudience (.prim (.s s)) = c.getAudience (.obj { id := some (.s s) })) ∧
    (∀ v : Int, c.getAudience (.prim (.n v)) =
      .error (.validation "Required: options.id")) ∧
    (∀ s : String,
      c.getDimension (.prim (.s s)) = c.getDimension (.obj { id := some (.s s) })) ∧
    (∀ v : Int, c.getDimension (.prim (.n v)) =
      .error (.validation "Required: options.id")) ∧
    (∀ s : String, c.deleteVariation (.prim (.s s)) =
      c.deleteVariation (.obj { id := some (.s s) })) ∧
    (∀ v : Int, c.deleteVariation (.prim (.n v)) =
      .error (.validation "Required: options.id")) ∧
    (∀ p : JsPrim, p.truthy = true →
      Except.map (fun ro => ro.1.url) (c.getVariation (.obj { id := some p })) =
        .ok (c.baseUrl ++ "variations/" ++ p.toStr)) ∧
    (∀ p : JsPrim, p.truthy = true → p.toStr ≠ "" →
      Except.map (fun ro => ro.1.url) (c.getProject (.prim p)) =
        .ok (c.baseUrl ++ "projects/" ++ p.toStr)) := by
  refine ⟨fun p => rfl, fun p => rfl, fun s => rfl, fun v => rfl, fun s => rfl,
    fun v => rfl, fun s => rfl, fun v => rfl, fun s => rfl, fun v => rfl,
    ?_, ?_⟩
  · intro p h
    simp [OptimizelyClient.getVariation, stringToIdObj, primTruthy, h,
      primOrEmpty_of_truthy h, Except.map]
  · intro p h h2
    have hs : strOfField (some p) = p.toStr := by
      simp [strOfField, primOrEmpty_of_truthy h]
    simp [OptimizelyClient.getProject, normalizeIdInput, hs, h2, Except.map]

/-- Witness for C9 at the numeric id 42. -/
theorem c9_amended_witness :
    Except.map (fun ro => ro.1.url)
      (defaultClient.getProject (.prim (.n 42))) =
      .ok "https://www.optimizelyapis.com/experiment/v1/projects/42" := by
  have h := (c9_amended defaultClient).2.2.2.2.2.2.2.2.2.2.2
  exact h (.n 42) (by decide) (by decide)

theorem primOrEmpty_falsy {f : Option JsPrim} (h : primTruthy f = false) :
    primOrEmpty f = .s "" := by
  cases f with
  | none => rfl
  | some p =>
    simp only [primTruthy] at h
    simp [primOrEmpty, h]

theorem opts_id_update_self (o : Opts) (p : JsPrim) (h : o.id = some p) :
    { o with id := some p } = o := by
  cases o
  simp_all

theorem strTruthy_some_orDefStr (f : Option String) :
    strTruthy (some (orDefStr f "")) = strTruthy f := by
  cases f with
  | none => rfl
  | some v => by_cases h : v = "" <;> simp [orDefStr, strTruthy, h]

theorem bodyGet_skip_last {k k2 : String} (h : (k2 == k) = false)
    (v : Option JVal) : bodyGet (optField k2 v) k = none := by
  cases v <;> simp [optField, bodyGet, List.find?, h]

/-- The concrete upsert input of the specification example: id 42 with
the mandatory experiment fields supplied. -/
def pushInput42 : Opts :=
  { id := some (.s "42"), edit_url := some "https://test.com", project_id := some (.s "1") }

/-- C3 (counterexample to the claim as stated): pushExperiment on the
empty object dispatches to createExperiment, which throws a
ValidationError for the missing edit_url, so no create request is
issued. -/
theorem c3_counterexample :
    defaultClient.pushExperiment (some {}) =
      .error (.validation "Required: options.edit_url") := rfl

/-- C3 (amended): pushExperiment and pushVariation dispatch to the
update operation exactly when the id field of the input is present and
non-empty, and otherwise dispatch to the create operation (which for
pushExperiment on the empty object then throws for the missing
mandatory fields rather than issuing a request); with id 42, edit_url
and project_id supplied, pushExperiment issues a PUT to experiments/42;
the decision uses only the id field, with no existence check against
the remote service. -/
theorem c3_amended (c : OptimizelyClient) :
    (∀ o : Opts, primTruthy o.id = true →
      c.pushExperiment (some o) = c.updateExperiment (some o)) ∧
    (∀ o : Opts, primTruthy o.id = false →
      c.pushExperiment (some o) =
        c.createExperiment (some { o with id := some (.s "") })) ∧
    (∀ o : Opts, primTruthy o.id = true →
      c.pushVariation (some o) = c.updateVariation (some o)) ∧
    (∀ o : Opts, primTruthy o.id = false →
      c.pushVariation (some o) =
        c.createVariation (some { o with id := some (.s "") })) ∧
    Except.map (fun ro => (ro.1.method, ro.1.url))
      (defaultClient.pushExperiment (some pushInput42)) =
      .ok ("put",
        "https://www.optimizelyapis.com/experiment/v1/experiments/42") ∧
    defaultClient.pushExperiment (some {}) =
      .error (.validation "Required: options.edit_url") := by
  refine ⟨?_, ?_, ?_, ?_, rfl, rfl⟩
  · intro o h
    cases ho : o.id with
    | none => rw [ho] at h; simp [primTruthy] at h
    | some p =>
      have hp : p.truthy = true := by rw [ho] at h; simpa [primTruthy] using h
      have he : { o with id := some (primOrEmpty o.id) } = o := by
        rw [ho, primOrEmpty_of_truthy hp]
        exact opts_id_update_self o p ho
      have hcond : primTruthy (some (primOrEmpty o.id)) = true := by
        rw [ho, primOrEmpty_of_truthy hp]; simpa [primTruthy] using hp
      simp [OptimizelyClient.pushExperiment, he, hcond]
  · intro o h
    have he : primOrEmpty o.id = .s "" := primOrEmpty_falsy h
    simp [OptimizelyClient.pushExperiment, he, primTruthy, JsPrim.truthy]
  · intro o h
    cases ho : o.id with
    | none => rw [ho] at h; simp [primTruthy] at h
    | some p =>
      have hp : p.truthy = true := by rw [ho] at h; simpa [primTruthy] using h
      have he : { o with id := some (primOrEmpty o.id) } = o := by
        rw [ho, primOrEmpty_of_truthy hp]
        exact opts_id_update_self o p ho
      have hcond : primTruthy (some (primOrEmpty o.id)) = true := by
        rw [ho, primOrEmpty_of_truthy hp]; simpa [primTruthy] using hp
      simp [OptimizelyClient.pushVariation, he, hcond]
  · intro o h
    have he : primOrEmpty o.id = .s "" := primOrEmpty_falsy h
    simp [OptimizelyClient.pushVariation, he, primTruthy, JsPrim.truthy]

/-- Witness for C3: an input with a non-empty id dispatches to the
update operation, one with an empty id to the create operation. -/
theorem c3_amended_witness :
    defaultClient.pushExperiment (some { id := some (.s "42") }) =
      defaultClient.updateExperiment (some { id := some (.s "42") }) ∧
    defaultClient.pushExperiment (some { id := some (.s "") }) =
      defaultClient.createExperiment
        (some { (({} : Opts)) with id := some (.s "") }) := by
  obtain ⟨h1, h2, _⟩ := c3_amended defaultClient
  exact ⟨h1 { id := some (.s "42") } rfl, h2 { id := some (.s "") } rfl⟩

/-- A concrete createExperiment input with both mandatory fields. -/
def expInput : Opts :=
  { edit_url := some "https://a.b", project_id := some (.s "1") }

/-- C10: createExperiment, updateExperiment and createVariation mutate
the caller-supplied options object: after a successful call the
caller's object has lost its project_id, id, and experiment_id field
respectively, and createExperiment and createVariation have written
default values into it. -/
theorem c10_caller_options_mutated (c : OptimizelyClient) (o : Opts) :
    (strTruthy o.edit_url = true → primTruthy o.project_id = true →
      Except.map (fun ro => ro.2.project_id) (c.createExperiment (some o)) =
        .ok none ∧
      Except.map (fun ro => ro.2.description) (c.createExperiment (some o)) =
        .ok (some (orDefStr o.description "")) ∧
      Except.map (fun ro => ro.2.edit_url) (c.createExperiment (some o)) =
        .ok (some (orDefStr o.edit_url "")) ∧
      Except.map (fun ro => ro.2.custom_css) (c.createExperiment (some o)) =
        .ok (some (orDefStr o.custom_css "")) ∧
      Except.map (fun ro => ro.2.custom_js) (c.createExperiment (some o)) =
        .ok (some (orDefStr o.custom_js ""))) ∧
    (strOfField o.id ≠ "" →
      Except.map (fun ro => ro.2.id) (c.updateExperiment (some o)) =
        .ok none) ∧
    (strOfField o.experiment_id ≠ "" →
      Except.map (fun ro => ro.2.experiment_id) (c.createVariation (some o)) =
        .ok none ∧
      Except.map (fun ro => ro.2.description) (c.createVariation (some o)) =
        .ok (some (orDefStr o.description ""))) := by
  refine ⟨?_, ?_, ?_⟩
  · intro h1 h2
    have hc1 : strTruthy (some (orDefStr o.edit_url "")) = true := by
      rw [strTruthy_some_orDefStr]; exact h1
    have hc2 : primTruthy (some (primOrEmpty o.project_id)) = true := by
      have he : primTruthy (some (primOrEmpty o.project_id)) =
          (primOrEmpty o.project_id).truthy := rfl
      rw [he, primOrEmpty_truthy]; exact h2
    refine ⟨?_, ?_, ?_, ?_, ?_⟩ <;>
      simp [OptimizelyClient.createExperiment, hc1, hc2, Except.map]
  · intro h
    simp [OptimizelyClient.updateExperiment, h, Except.map]
  · intro h
    constructor <;>
      simp [OptimizelyClient.createVariation, h, Except.map]

/-- Witness for C10 at concrete inputs. -/
theorem c10_caller_options_mutated_witness :
    Except.map (fun ro => ro.2.project_id)
      (defaultClient.createExperiment (some expInput)) = .ok none ∧
    Except.map (fun ro => ro.2.id)
      (defaultClient.updateExperiment (some { id := some (.s "9") })) =
      .ok none ∧
    Except.map (fun ro => ro.2.experiment_id)
      (defaultClient.createVariation (some { experiment_id := some (.s "3") })) =
      .ok none := by
  obtain ⟨h1, h2, h3⟩ := c10_caller_options_mutated defaultClient expInput
  obtain ⟨_, h2b, _⟩ := c10_caller_options_mutated defaultClient
    { id := some (.s "9") }
  obtain ⟨_, _, h3b⟩ := c10_caller_options_mutated defaultClient
    { experiment_id := some (.s "3") }
  exact ⟨(h1 rfl rfl).1, h2b (by decide), (h3b (by decide)).1⟩

/-- A concrete createAudience input with both mandatory fields. -/
def audInput : Opts := { name := some "aud", id := some (.s "2") }

theorem bodyGet_none (k2 k : String) (rest : List (String × JVal)) :
    bodyGet (optField k2 none ++ rest) k = bodyGet rest k := by
  simp [optField]

/-- C2 (counterexample to the claim as stated): createExperiment with
both mandatory fields supplied issues a request whose body does NOT
contain project_id (the field is deleted and moved into the URL). -/
theorem c2_counterexample :
    Except.map (fun ro => ro.1.bodyField "project_id")
      (defaultClient.createExperiment (some expInput)) = .ok none := rfl

/-- C2 (amended): for every resource create operation, omitting a
mandatory field (edit_url and project_id for createExperiment, name and
id for createAudience and createDimension) throws a ValidationError
before any network call; when all mandatory fields are supplied, the
serialized request body contains each such field with the caller's
value, except createExperiment's project_id, which is deleted from the
body and embedded in the request URL instead. -/
theorem c2_amended (c : OptimizelyClient) :
    (∀ o : Opts, strTruthy o.edit_url = false →
      throwsValidation (c.createExperiment (some o))) ∧
    (∀ o : Opts, strTruthy o.edit_url = true →
      primTruthy o.project_id = false →
      throwsValidation (c.createExperiment (some o))) ∧
    (∀ (o : Opts) (u : String) (p : JsPrim), o.edit_url = some u → u ≠ "" →
      o.project_id = some p → p.truthy = true →
      Except.map (fun ro => ro.1.bodyField "edit_url")
        (c.createExperiment (some o)) = .ok (some (.s u)) ∧
      Except.map (fun ro => ro.1.bodyField "project_id")
        (c.createExperiment (some o)) = .ok none ∧
      Except.map (fun ro => ro.1.url) (c.createExperiment (some o)) =
        .ok (c.baseUrl ++ "projects/" ++ p.toStr ++ "/experiments/")) ∧
    (∀ o : Opts, strTruthy o.name = false →
      throwsValidation (c.createAudience (some o))) ∧
    (∀ o : Opts, strTruthy o.name = true → primTruthy o.id = false →
      throwsValidation (c.createAudience (some o))) ∧
    (∀ (o : Opts) (nm : String) (p : JsPrim), o.name = some nm → nm ≠ "" →
      o.id = some p → p.truthy = true →
      Except.map (fun ro => ro.1.bodyField "name")
        (c.createAudience (some o)) = .ok (some (.s nm)) ∧
      Except.map (fun ro => ro.1.bodyField "id")
        (c.createAudience (some o)) = .ok (some (primJ p))) ∧
    (∀ o : Opts, strTruthy o.name = false →
      throwsValidation (c.createDimension (some o))) ∧
    (∀ o : Opts, strTruthy o.name = true → primTruthy o.id = false →
      throwsValidation (c.createDimension (some o))) ∧
    (∀ (o : Opts) (nm : String) (p : JsPrim), o.name = some nm → nm ≠ "" →
      o.id = some p → p.truthy = true →
      Except.map (fun ro => ro.1.bodyField "name")
        (c.createDimension (some o)) = .ok (some (.s nm)) ∧
      Except.map (fun ro => ro.1.bodyField "id")
        (c.createDimension (some o)) = .ok (some (primJ p))) := by
  refine ⟨?_, ?_, ?_, ?_, ?_, ?_, ?_, ?_, ?_⟩
  · intro o h
    have hc : strTruthy (some (orDefStr o.edit_url "")) = false := by
      rw [strTruthy_some_orDefStr]; exact h
    exact ⟨"Required: options.edit_url",
      by simp [OptimizelyClient.createExperiment, hc]⟩
  · intro o h1 h2
    have hc1 : strTruthy (some (orDefStr o.edit_url "")) = true := by
      rw [strTruthy_some_orDefStr]; exact h1
    have hc2 : primTruthy (some (primOrEmpty o.project_id)) = false := by
      have he : primTruthy (some (primOrEmpty o.project_id)) =
          (primOrEmpty o.project_id).truthy := rfl
      rw [he, primOrEmpty_truthy]; exact h2
    exact ⟨"Required: options.project_id",
      by simp [OptimizelyClient.createExperiment, hc1, hc2]⟩
  · intro o u p hu hu2 hp hp2
    have hou : orDefStr o.edit_url "" = u := by simp [hu, orDefStr, hu2]
    have hc1 : strTruthy (some (orDefStr o.edit_url "")) = true := by
      simp [hou, strTruthy, hu2]
    have hpe : primOrEmpty o.project_id = p := by
      rw [hp]; exact primOrEmpty_of_truthy hp2
    have hc2 : primTruthy (some (primOrEmpty o.project_id)) = true := by
      rw [hpe]; simpa [primTruthy] using hp2
    have hsu : strTruthy (some u) = true := by simp [strTruthy, hu2]
    have hpp : primTruthy (some p) = true := by simpa [primTruthy] using hp2
    refine ⟨?_, ?_, ?_⟩
    · simp [OptimizelyClient.createExperiment, hc1, hc2, hsu, hpp, Except.map,
        Request.bodyField, Opts.serialize, hou, primOrEmpty_of_truthy hp2,
        bodyGet_skip, bodyGet_here, bodyGet_here_last, bodyGet_none]
    · simp [OptimizelyClient.createExperiment, hc1, hc2, hsu, hpp, Except.map,
        Request.bodyField, Opts.serialize, primOrEmpty_of_truthy hp2,
        bodyGet_skip, bodyGet_skip_last, bodyGet_none]
    · simp [OptimizelyClient.createExperiment, hc1, hc2, hsu, hpp, Except.map,
        hpe, primOrEmpty_of_truthy hp2]
  · intro o h
    exact ⟨"Required: options.name",
      by simp [OptimizelyClient.createAudience, h]⟩
  · intro o h1 h2
    exact ⟨"Required: options.id",
      by simp [OptimizelyClient.createAudience, h1, h2]⟩
  · intro o nm p hn hn2 hi hp2
    have hname : strTruthy o.name = true := by simp [hn, strTruthy, hn2]
    have hid : primTruthy o.id = true := by
      rw [hi]; simpa [primTruthy] using hp2
    have hsnm : strTruthy (some nm) = true := by simp [strTruthy, hn2]
    have hpp : primTruthy (some p) = true := by simpa [primTruthy] using hp2
    constructor
    · simp [OptimizelyClient.createAudience, hname, hid, hsnm, hpp, Except.map,
        Request.bodyField, bodyGet, List.find?, hn]
    · simp [OptimizelyClient.createAudience, hname, hid, hsnm, hpp, Except.map,
        Request.bodyField, bodyGet, List.find?, hi,
        primOrEmpty_of_truthy hp2]
  · intro o h
    exact ⟨"Required: options.name",
      by simp [OptimizelyClient.createDimension, h]⟩
  · intro o h1 h2
    exact ⟨"Required: options.id",
      by simp [OptimizelyClient.createDimension, h1, h2]⟩
  · intro o nm p hn hn2 hi hp2
    have hname : strTruthy o.name = true := by simp [hn, strTruthy, hn2]
    have hid : primTruthy o.id = true := by
      rw [hi]; simpa [primTruthy] using hp2
    have hsnm : strTruthy (some nm) = true := by simp [strTruthy, hn2]
    have hpp : primTruthy (some p) = true := by simpa [primTruthy] using hp2
    constructor
    · simp [OptimizelyClient.createDimension, hname, hid, hsnm, hpp, Except.map,
        Request.bodyField, bodyGet, List.find?, hn]
    · simp [OptimizelyClient.createDimension, hname, hid, hsnm, hpp, Except.map,
        Request.bodyField, bodyGet, List.find?, hi,
        primOrEmpty_of_truthy hp2]

/-- Witness for C2 at concrete inputs: omitting edit_url throws; with
all mandatory fields supplied, the body carries the caller values. -/
theorem c2_amended_witness :
    throwsValidation (defaultClient.createExperiment (some {})) ∧
    Except.map (fun ro => ro.1.bodyField "edit_url")
      (defaultClient.createExperiment (some expInput)) =
      .ok (some (.s "https://a.b")) ∧
    Except.map (fun ro => ro.1.bodyField "name")
      (defaultClient.createAudience (some audInput)) =
      .ok (some (.s "aud")) := by
  obtain ⟨h1, _, h3, _, _, h6, _⟩ := c2_amended defaultClient
  exact ⟨h1 {} rfl,
    (h3 expInput "https://a.b" (.s "1") rfl (by decide) rfl (by decide)).1,
    (h6 audInput "aud" (.s "2") rfl (by decide) rfl (by decide)).1⟩

/-- The concrete updateProject input of the counterexample. -/
def updInput : Opts := { id := some (.s "5"), project_name := some "x" }

/-- C7 (counterexample to the claim as stated): updateProject
serializes the full caller options INCLUDING the identifier, so the
body of the PUT contains the id field, contradicting the claimed
full-options-minus-identifier body. -/
theorem c7_counterexample :
    Except.map (fun ro => ro.1.bodyField "id")
      (defaultClient.updateProject (some updInput)) =
      .ok (some (.s "5")) := rfl

/-- The options record as updateExperiment leaves it: defaults written
into description, edit_url, custom_css and custom_js, and the id
removed. -/
def updateExperimentFinal (o : Opts) : Opts :=
  { o with id := none, description := some (orDefStr o.description ""), edit_url := some (orDefStr o.edit_url ""), custom_css := some (orDefStr o.custom_css ""), custom_js := some (orDefStr o.custom_js "") }

/-- C7 (amended): updateVariation serializes as body exactly the
fields id, description and js_component; updateExperiment serializes
the caller options with description, edit_url, custom_css and custom_js
defaulted to empty strings and the id removed (the id moves into the
URL); updateProject, updateAudience and updateDimension serialize the
caller options unchanged, identifier included, while the identifier is
also embedded in the URL. -/
theorem c7_amended (c : OptimizelyClient) :
    (∀ o : Opts, primTruthy o.id = true →
      Except.map (fun ro => ro.1.body) (c.updateVariation (some o)) =
        .ok (some [("id", primJ (primOrEmpty o.id)),
          ("description", JVal.s (orDefStr o.description "")),
          ("js_component", JVal.s (orDefStr o.js_component ""))])) ∧
    (∀ o : Opts, strOfField o.id ≠ "" →
      Except.map (fun ro => ro.1.body) (c.updateExperiment (some o)) =
        .ok (some (Opts.serialize (updateExperimentFinal o))) ∧
      Except.map (fun ro => ro.1.bodyField "id")
        (c.updateExperiment (some o)) = .ok none ∧
      Except.map (fun ro => ro.1.url) (c.updateExperiment (some o)) =
        .ok (c.baseUrl ++ "experiments/" ++ strOfField o.id)) ∧
    (∀ o : Opts, primTruthy o.id = true →
      Except.map (fun ro => ro.1.body) (c.updateProject (some o)) =
        .ok (some o.serialize) ∧
      Except.map (fun ro => ro.1.bodyField "id")
        (c.updateProject (some o)) =
        .ok (some (primJ (primOrEmpty o.id)))) ∧
    (∀ o : Opts, primTruthy o.id = true →
      Except.map (fun ro => ro.1.body) (c.updateAudience (some o)) =
        .ok (some o.serialize) ∧
      Except.map (fun ro => ro.1.bodyField "id")
        (c.updateAudience (some o)) =
        .ok (some (primJ (primOrEmpty o.id)))) ∧
    (∀ o : Opts, primTruthy o.id = true →
      Except.map (fun ro => ro.1.body) (c.updateDimension (some o)) =
        .ok (some o.serialize) ∧
      Except.map (fun ro => ro.1.bodyField "id")
        (c.updateDimension (some o)) =
        .ok (some (primJ (primOrEmpty o.id)))) := by
  have hbody : ∀ o : Opts, primTruthy o.id = true →
      bodyGet o.serialize "id" = some (primJ (primOrEmpty o.id)) := by
    intro o h
    cases ho : o.id with
    | none => rw [ho] at h; simp [primTruthy] at h
    | some p =>
      have hp : p.truthy = true := by rw [ho] at h; simpa [primTruthy] using h
      rw [primOrEmpty_of_truthy hp]
      simp [Opts.serialize, ho, bodyGet_here]
  refine ⟨?_, ?_, ?_, ?_, ?_⟩
  · intro o h
    simp [OptimizelyClient.updateVariation, h, Except.map]
  · intro o h
    refine ⟨?_, ?_, ?_⟩
    · simp [OptimizelyClient.updateExperiment, updateExperimentFinal, h,
        Except.map]
    · simp [OptimizelyClient.updateExperiment, h, Except.map,
        Request.bodyField, Opts.serialize,
        bodyGet_skip, bodyGet_skip_last, bodyGet_none]
    · simp [OptimizelyClient.updateExperiment, h, Except.map]
  · intro o h
    exact ⟨by simp [OptimizelyClient.updateProject, h, Except.map],
      by simp [OptimizelyClient.updateProject, h, Except.map,
        Request.bodyField, hbody o h]⟩
  · intro o h
    exact ⟨by simp [OptimizelyClient.updateAudience, h, Except.map],
      by simp [OptimizelyClient.updateAudience, h, Except.map,
        Request.bodyField, hbody o h]⟩
  · intro o h
    exact ⟨by simp [OptimizelyClient.updateDimension, h, Except.map],
      by simp [OptimizelyClient.updateDimension, h, Except.map,
        Request.bodyField, hbody o h]⟩

/-- Witness for C7 at concrete inputs. -/
theorem c7_amended_witness :
    Except.map (fun ro => ro.1.body)
      (defaultClient.updateVariation (some { id := some (.s "3") })) =
      .ok (some [("id", JVal.s "3"), ("description", JVal.s ""),
        ("js_component", JVal.s "")]) ∧
    Except.map (fun ro => ro.1.bodyField "id")
      (defaultClient.updateExperiment (some { id := some (.s "9") })) =
      .ok none := by
  obtain ⟨h1, h2, _⟩ := c7_amended defaultClient
  exact ⟨h1 { id := some (.s "3") } rfl,
    (h2 { id := some (.s "9") } (by decide)).2.1⟩

/-- The concrete getStats input of the specification example:
experiment 7 with dimension filter d1 = v1. -/
def statsInput : Opts :=
  { id := some (.s "7"), dimension := some { id := some "d1", value := some "v1" } }

/-- C5: for getResults and getStats, when a dimension filter object is
supplied, both dimension.id and dimension.value are mandatory: a
ValidationError is thrown before any network call if either is missing
(or empty), and otherwise both values are percent-encoded into the
query string as dimension_id and dimension_value; in particular
getStats on experiment 7 with dimension d1 = v1 requests
experiments/7/stats?dimension_id=d1&dimension_value=v1. -/
theorem c5_dimension_filter (c : OptimizelyClient) :
    (∀ (o : Opts) (d : Dimension), o.dimension = some d →
      strTruthy d.id = false →
      throwsValidation (c.getResults (.obj o)) ∧
      throwsValidation (c.getStats (.obj o))) ∧
    (∀ (o : Opts) (d : Dimension), o.dimension = some d →
      strTruthy d.id = true → strTruthy d.value = false →
      throwsValidation (c.getResults (.obj o)) ∧
      throwsValidation (c.getStats (.obj o))) ∧
    (∀ (o : Opts) (d : Dimension) (s idv dv : String),
      o.id = some (.s s) → s ≠ "" → o.dimension = some d →
      d.id = some idv → idv ≠ "" → d.value = some dv → dv ≠ "" →
      Except.map (fun ro => ro.1.url) (c.getResults (.obj o)) =
        .ok (c.baseUrl ++ "experiments/" ++ s ++ "/results?dimension_id="
          ++ encodeURIComponent idv ++ "&dimension_value="
          ++ encodeURIComponent dv) ∧
      Except.map (fun ro => ro.1.url) (c.getStats (.obj o)) =
        .ok (c.baseUrl ++ "experiments/" ++ s ++ "/stats?dimension_id="
          ++ encodeURIComponent idv ++ "&dimension_value="
          ++ encodeURIComponent dv)) ∧
    Except.map (fun ro => ro.1.url) (defaultClient.getStats (.obj statsInput))
      = .ok ("https://www.optimizelyapis.com/experiment/v1/" ++
        "experiments/7/stats?dimension_id=d1&dimension_value=v1") := by
  refine ⟨?_, ?_, ?_, rfl⟩
  · intro o d hd hdi
    by_cases hs : strOfField o.id = ""
    · exact ⟨⟨"required: options.id",
        by simp [OptimizelyClient.getResults, normalizeIdInput, hs]⟩,
        ⟨"required: options.id", by simp [OptimizelyClient.getStats, normalizeIdInput, hs]⟩⟩
    · exact ⟨⟨"required: options.dimension.id",
        by simp [OptimizelyClient.getResults, normalizeIdInput, hs, hd, hdi]⟩,
        ⟨"required: options.dimension.id",
        by simp [OptimizelyClient.getStats, normalizeIdInput, hs, hd, hdi]⟩⟩
  · intro o d hd hdi hdv
    by_cases hs : strOfField o.id = ""
    · exact ⟨⟨"required: options.id",
        by simp [OptimizelyClient.getResults, normalizeIdInput, hs]⟩,
        ⟨"required: options.id", by simp [OptimizelyClient.getStats, normalizeIdInput, hs]⟩⟩
    · exact ⟨⟨"required: options.dimension.value",
        by simp [OptimizelyClient.getResults, normalizeIdInput, hs, hd, hdi, hdv]⟩,
        ⟨"required: options.dimension.value",
        by simp [OptimizelyClient.getStats, normalizeIdInput, hs, hd, hdi, hdv]⟩⟩
  · intro o d s idv dv ho hs hd hdi hdi2 hdv hdv2
    have hso : strOfField o.id = s := by
      simp [ho, strOfField, primOrEmpty, JsPrim.truthy, hs, JsPrim.toStr]
    have h1 : strTruthy d.id = true := by simp [strTruthy, hdi, hdi2]
    have h2 : strTruthy d.value = true := by simp [strTruthy, hdv, hdv2]
    have h1b : strTruthy (some idv) = true := by simp [strTruthy, hdi2]
    have h2b : strTruthy (some dv) = true := by simp [strTruthy, hdv2]
    constructor
    · simp [OptimizelyClient.getResults, normalizeIdInput, hso, hs, hd, h1,
        h2, h1b, h2b, hdi, hdv, Except.map, String.append_assoc]
    · simp [OptimizelyClient.getStats, normalizeIdInput, hso, hs, hd, h1,
        h2, h1b, h2b, hdi, hdv, Except.map, String.append_assoc]

/-- Witness for C5 at concrete inputs: a dimension filter missing its
value throws; the complete filter produces the encoded query string. -/
theorem c5_dimension_filter_witness :
    throwsValidation (defaultClient.getStats
      (.obj { id := some (.s "7"), dimension := some { id := some "d1" } })) ∧
    Except.map (fun ro => ro.1.url)
      (defaultClient.getResults (.obj statsInput)) =
      .ok ("https://www.optimizelyapis.com/experiment/v1/" ++
        "experiments/7/results?dimension_id=d1&dimension_value=v1") := by
  obtain ⟨_, h2, h3, _⟩ := c5_dimension_filter defaultClient
  refine ⟨(h2 { id := some (.s "7"), dimension := some { id := some "d1" } }
    { id := some "d1" } rfl (by decide) rfl).2, ?_⟩
  exact (h3 statsInput { id := some "d1", value := some "v1" } "7" "d1" "v1"
    rfl (by decide) rfl rfl (by decide) rfl (by decide)).1

/-- A concrete experiment list with descriptions A, B and C. -/
def demoExps : List JsObj :=
  [[("description", JVal.s "A")], [("description", JVal.s "B")],
   [("description", JVal.s "C")]]

/-- C4: getExperimentByDescription lists the experiments of the project
(its single request is exactly the one getExperiments issues), parses
the result first when it arrives as serialized text (JSON.parse is the
external primitive `parse`), and returns the first entry whose
description field is strictly equal to the requested value, or null
(none) when no entry matches. -/
theorem c4_find_by_description (c : OptimizelyClient) (pid descr : String)
    (hp : pid ≠ "") (hd : descr ≠ "") (parse : String → List JsObj)
    (raw : String) (xs : List JsObj) :
    c.getExperimentByDescription (.prim (.s pid)) (some descr) =
      Except.map (fun ro => (ro.1, descr)) (c.getExperiments (.prim (.s pid))) ∧
    Except.map (fun ro => (ro.1.method, ro.1.url))
      (c.getExperiments (.prim (.s pid))) =
      .ok ("get", c.baseUrl ++ "projects/" ++ pid ++ "/experiments/") ∧
    experimentByDescriptionScan parse descr (.text raw) =
      findByDescription (parse raw) descr ∧
    experimentByDescriptionScan parse descr (.arr xs) =
      findByDescription xs descr ∧
    findByDescription xs descr =
      xs.find? (fun x => isStrVal (x.getField "description") descr) ∧
    ((∀ x ∈ xs, isStrVal (x.getField "description") descr = false) →
      findByDescription xs descr = none) := by
  have hps : strOfField (some (JsPrim.s pid)) = pid := by
    simp [strOfField, primOrEmpty, JsPrim.truthy, hp, JsPrim.toStr]
  have hfind : findByDescription xs descr =
      xs.find? (fun x => isStrVal (x.getField "description") descr) := by
    induction xs with
    | nil => rfl
    | cons x rest ih =>
      by_cases hmatch : isStrVal (x.getField "description") descr <;>
        simp [findByDescription, List.find?, hmatch, ih]
  refine ⟨?_, ?_, rfl, rfl, hfind, ?_⟩
  · simp [OptimizelyClient.getExperimentByDescription,
      OptimizelyClient.getExperiments, normalizeProjectIdInput, hps, hp, hd,
      strTruthy, Except.map]
  · simp [OptimizelyClient.getExperiments, normalizeProjectIdInput, hps, hp,
      Except.map]
  · intro hall
    rw [hfind]
    refine List.find?_eq_none.mpr ?_
    intro x hx
    simp [hall x hx]

/-- Witness for C4: on the project-1 list with descriptions A, B, C the
request is the getExperiments one, B is found as the first strict
match, and Z yields the null sentinel. -/
theorem c4_find_by_description_witness :
    defaultClient.getExperimentByDescription (.prim (.s "1")) (some "B") =
      Except.map (fun ro => (ro.1, "B"))
        (defaultClient.getExperiments (.prim (.s "1"))) ∧
    findByDescription demoExps "B" =
      List.find? (fun x => isStrVal (x.getField "description") "B") demoExps ∧
    findByDescription demoExps "B" = some [("description", JVal.s "B")] ∧
    findByDescription demoExps "Z" = none := by
  obtain ⟨h1, _, _, _, h5, _⟩ := c4_find_by_description defaultClient "1" "B"
    (by decide) (by decide) (fun _ => []) "" demoExps
  obtain ⟨_, _, _, _, _, h6⟩ := c4_find_by_description defaultClient "1" "Z"
    (by decide) (by decide) (fun _ => []) "" demoExps
  exact ⟨h1, h5, rfl, h6 (by decide)⟩
